import Mathlib

/-!
Shallow embedding of the voice transcription pipeline of this repository.

The pipeline lives in the top-level entry script: it checks that the vosk
model directory exists, loads the model, transcodes the input audio to a
16 kHz mono 16-bit PCM WAV via ffmpeg, opens the WAV with the wave module,
validates channel count and sample width, feeds 4000-frame blocks to a
KaldiRecognizer, prints each non-empty interim text, then prints the final
flushed text if non-empty.

External collaborators (the vosk recognizer, the ffmpeg tool, the file
system, and the wave module) are embedded as explicit parameters: the
recognizer as an abstract structure of total functions, the world as a
record of the facts the script observes, and the observable behaviour of a
run as a list of events plus an optional fatal error.
-/

namespace VoiceChat

/-- A byte of raw PCM data. -/
abbrev Byte := Nat

/-- One audio frame: the raw bytes of one sample slot
(nchannels * sampwidth bytes in a well-formed file). -/
abbrev Frame := List Byte

/-- A block of raw PCM bytes as handed to the recognizer. -/
abbrev Block := List Byte

/-- A WAV file as exposed by the wave module: the header fields the script
can query, plus the PCM payload grouped into frames. -/
structure WavFile where
  nchannels : Nat
  sampwidth : Nat
  framerate : Nat
  frames : List Frame

/-- MODEL_PATH constant of the entry script. -/
def MODEL_PATH : String := "./voice_models/vosk-model-ru-0.42"

/-- INPUT_OGG constant of the entry script. -/
def INPUT_OGG : String := "audio.ogg"

/-- OUTPUT_WAV constant of the entry script. -/
def OUTPUT_WAV : String := "audio.wav"

/-- The readframes loop: wf.readframes(4000) returns the bytes of the next
at-most-4000 frames, and an empty result terminates the loop.  Embedded as
splitting the frame list into successive chunks of at most 4000 frames. -/
def readBlocks (frames : List Frame) : List (List Frame) :=
  match frames with
  | [] => []
  | f :: fs => List.take 4000 (f :: fs) :: readBlocks (List.drop 4000 (f :: fs))
termination_by frames.length
decreasing_by
  simp only [List.length_drop, List.length_cons]
  omega

/-- The raw bytes of one block of frames, as returned by readframes. -/
def blockBytes (b : List Frame) : Block := b.flatten

/-- The full PCM payload of a WAV file, as raw bytes. -/
def wavPayload (w : WavFile) : List Byte := w.frames.flatten

/-- The spec's error taxonomy (section 7).  In the code, ModelNotFoundError
is the FileNotFoundError raised when the model directory is missing,
TranscodeError is the failure of the ffmpeg invocation, and FormatError is
the ValueError raised by the mono/16-bit validation. -/
inductive RunError where
  | ModelNotFoundError
  | TranscodeError
  | FormatError
  deriving DecidableEq

/-- Opening the transcoded WAV: the channel/sample-width validation followed
by the readframes loop.  A file that fails validation yields no blocks. -/
def openWavReader (w : WavFile) : Except RunError (List Block) :=
  if w.nchannels ≠ 1 ∨ w.sampwidth ≠ 2 then
    Except.error RunError.FormatError
  else
    Except.ok ((readBlocks w.frames).map blockBytes)

theorem readBlocks_nil : readBlocks [] = [] := by
  simp [readBlocks]

theorem readBlocks_cons (f : Frame) (fs : List Frame) :
    readBlocks (f :: fs) =
      List.take 4000 (f :: fs) :: readBlocks (List.drop 4000 (f :: fs)) := by
  rw [readBlocks]

theorem readBlocks_eq_nil_iff (frames : List Frame) :
    readBlocks frames = [] ↔ frames = [] := by
  cases frames with
  | nil => simp [readBlocks_nil]
  | cons f fs => simp [readBlocks_cons]

theorem readBlocks_flatten (frames : List Frame) :
    (readBlocks frames).flatten = frames := by
  induction frames using readBlocks.induct with
  | case1 => simp [readBlocks_nil]
  | case2 f fs ih =>
    rw [readBlocks_cons, List.flatten_cons, ih, List.take_append_drop]

theorem readBlocks_length_le (frames : List Frame) :
    ∀ b ∈ readBlocks frames, b.length ≤ 4000 ∧ b ≠ [] := by
  induction frames using readBlocks.induct with
  | case1 => simp [readBlocks_nil]
  | case2 f fs ih =>
    rw [readBlocks_cons]
    intro b hb
    rcases List.mem_cons.mp hb with h | h
    · subst h
      constructor
      · simp [List.length_take]
      · intro hnil
        have := congrArg List.length hnil
        simp [List.length_take] at this
    · exact ih b h

theorem readBlocks_dropLast (frames : List Frame) :
    ∀ b ∈ (readBlocks frames).dropLast, b.length = 4000 := by
  induction frames using readBlocks.induct with
  | case1 => simp [readBlocks_nil]
  | case2 f fs ih =>
    rw [readBlocks_cons]
    intro b hb
    rcases h : readBlocks (List.drop 4000 (f :: fs)) with _ | ⟨r, rs⟩
    · rw [h] at hb
      simp at hb
    · rw [h] at hb
      rw [List.dropLast_cons₂] at hb
      rcases List.mem_cons.mp hb with h2 | h2
      · subst h2
        have hdrop : List.drop 4000 (f :: fs) ≠ [] := by
          intro hd
          rw [hd, readBlocks_nil] at h
          exact List.noConfusion h
        have hlen : 4000 < (f :: fs).length := by
          have := List.length_drop 4000 (f :: fs)
          rcases Nat.lt_or_ge 4000 (f :: fs).length with hl | hl
          · exact hl
          · exfalso
            apply hdrop
            exact List.drop_eq_nil_of_le hl
        simp only [List.length_cons] at hlen
        simp [List.length_take, List.length_cons]
        omega
      · exact ih b (by rw [h]; exact h2)

/-- Modelled from the spec: the vosk recognizer library is an external
dependency, not code of this repository; sections 4.3 and 9 treat it as a
black-box capability.  loadModel is the Model constructor, initSession is
KaldiRecognizer construction (model, sample rate) plus SetWords,
acceptWaveform returns the new decode state and whether an interim result
became available, result reads the text field of Result(), and finalResult
reads the text field of FinalResult(); per the spec every result record
carries at least a text field, possibly empty. -/
structure VoskLib (μ σ : Type) where
  loadModel : String → μ
  initSession : μ → Nat → Bool → σ
  acceptWaveform : σ → Block → σ × Bool
  result : σ → String
  finalResult : σ → String

/-- The observable events of one run of the entry script, in the order they
happen: the model-directory check, model loading, the ffmpeg transcode
writing OUTPUT_WAV, recognizer-session construction (sample rate, words
flag), opening OUTPUT_WAV with the wave module, feeding one block, printing
one line to standard output, and the FinalResult call. -/
inductive Event where
  | checkDir
  | loadModel
  | transcode
  | mkSession (rate : Nat) (words : Bool)
  | openWav
  | feed (b : Block)
  | printLine (t : String)
  | finalize
  deriving DecidableEq

/-- The facts about the outside world a run observes: whether the model
directory exists, whether ffmpeg can read and decode the input file,
whether the external tool exits with status zero, and the WAV file found at
OUTPUT_WAV when the script opens it after a successful transcode. -/
structure Env where
  modelDirExists : Bool
  inputDecodable : Bool
  toolExitZero : Bool
  wav : WavFile

/-- The while loop of the entry script: feed each block with AcceptWaveform;
when it returns true, parse Result() and print the text if non-empty.
Returns the events of the loop and the recognizer state after it. -/
def feedLoop {μ σ : Type} (lib : VoskLib μ σ) : σ → List Block → List Event × σ
  | s, [] => ([], s)
  | s, b :: bs =>
    let p := lib.acceptWaveform s b
    let evs := if p.2 then
        (if lib.result p.1 = "" then [] else [Event.printLine (lib.result p.1)])
      else []
    let r := feedLoop lib p.1 bs
    (Event.feed b :: (evs ++ r.1), r.2)

/-- The entire entry script, as the event trace it produces and the fatal
error it raises, if any.  The order follows the source: directory check,
Model construction, ffmpeg transcode, KaldiRecognizer construction with
SetWords(True) at sample rate 16000, wave.open with the format validation,
the feed loop, FinalResult, and the final print if its text is non-empty. -/
def run {μ σ : Type} (lib : VoskLib μ σ) (env : Env) :
    List Event × Option RunError :=
  if env.modelDirExists = false then
    ([Event.checkDir], some RunError.ModelNotFoundError)
  else if env.inputDecodable = false ∨ env.toolExitZero = false then
    ([Event.checkDir, Event.loadModel], some RunError.TranscodeError)
  else
    let m := lib.loadModel MODEL_PATH
    let s0 := lib.initSession m 16000 true
    match openWavReader env.wav with
    | Except.error e =>
      ([Event.checkDir, Event.loadModel, Event.transcode,
        Event.mkSession 16000 true, Event.openWav], some e)
    | Except.ok blocks =>
      let r := feedLoop lib s0 blocks
      let t := lib.finalResult r.2
      let finEvs := if t = "" then [] else [Event.printLine t]
      ([Event.checkDir, Event.loadModel, Event.transcode,
        Event.mkSession 16000 true, Event.openWav]
         ++ r.1 ++ [Event.finalize] ++ finEvs, none)

/-- The lines a trace writes to standard output, in order. -/
def printedLines (tr : List Event) : List String :=
  tr.filterMap fun e =>
    match e with
    | Event.printLine t => some t
    | _ => none

/-- The blocks a trace feeds to the recognizer, in order. -/
def fedBlocks (tr : List Event) : List Block :=
  tr.filterMap fun e =>
    match e with
    | Event.feed b => some b
    | _ => none

/-- Events a feed loop may produce: feeding a block or printing a line. -/
def isLoopEvent : Event → Prop
  | Event.feed _ => True
  | Event.printLine _ => True
  | _ => False

/-- The sequence of interim result texts a session produces on a block
sequence: one text per AcceptWaveform call that returns true. -/
def sessionTexts {μ σ : Type} (lib : VoskLib μ σ) : σ → List Block → List String
  | _, [] => []
  | s, b :: bs =>
    let p := lib.acceptWaveform s b
    (if p.2 then [lib.result p.1] else []) ++ sessionTexts lib p.1 bs

/-- The recognizer state after feeding a block sequence. -/
def sessionEndState {μ σ : Type} (lib : VoskLib μ σ) : σ → List Block → σ
  | s, [] => s
  | s, b :: bs => sessionEndState lib (lib.acceptWaveform s b).1 bs

/-- Written from the spec's wording of the output contract: each non-empty
interim recognized text on its own line, in the order produced, followed by
the final flushed text if and only if it is non-empty. -/
def specOutput {μ σ : Type} (lib : VoskLib μ σ) (s0 : σ) (blocks : List Block) :
    List String :=
  (sessionTexts lib s0 blocks).filter (fun t => t ≠ "") ++
    (if lib.finalResult (sessionEndState lib s0 blocks) = "" then []
     else [lib.finalResult (sessionEndState lib s0 blocks)])

/-- Written from the spec's wording of the driver contract (section 4.4):
stage (4) open-and-validate the WAV strictly before stage (5) session
construction, then the loop events, then one finalize, then the final
print events. -/
def specStageOrder (tr : List Event) : Prop :=
  ∃ loopEvs finEvs,
    tr = [Event.checkDir, Event.loadModel, Event.transcode, Event.openWav,
          Event.mkSession 16000 true] ++ loopEvs ++ [Event.finalize] ++ finEvs

/-- The keyword arguments of the ffmpeg output call in the entry script. -/
structure OutputOpts where
  ar : Nat
  ac : Nat
  acodec : String
  f : String
  deriving DecidableEq

/-- The output options the script passes to ffmpeg (lines 18-23). -/
def transcodeOpts : OutputOpts :=
  { ar := 16000, ac := 1, acodec := "pcm_s16le", f := "wav" }

/-- The overwrite_output() flag of the ffmpeg invocation (line 24). -/
def overwriteOutput : Bool := true

/-- Modelled from the spec: the external transcoding tool is not code of
this repository; per sections 4.1 and 6, the codec pcm_s16le produces
2-byte samples. -/
def sampWidthOfCodec (c : String) : Nat :=
  if c = "pcm_s16le" then 2 else 0

/-- Modelled from the spec: on a zero exit, the external tool writes to the
target path a WAV whose channel count is the ac option, sample rate the ar
option, and sample width that of the requested codec; the decoded audio
content itself is abstract. -/
def ffmpegWav (opts : OutputOpts) (audio : List Frame) : WavFile :=
  { nchannels := opts.ac
    sampwidth := sampWidthOfCodec opts.acodec
    framerate := opts.ar
    frames := audio }

/-- A concrete recognizer for witnesses: state is trivial, AcceptWaveform
never reports an interim result, every text is empty. -/
def trivLib : VoskLib Unit Unit :=
  { loadModel := fun _ => ()
    initSession := fun _ _ _ => ()
    acceptWaveform := fun _ _ => ((), false)
    result := fun _ => ""
    finalResult := fun _ => "" }

/-- A concrete well-formed WAV with an empty payload. -/
def emptyWav : WavFile :=
  { nchannels := 1, sampwidth := 2, framerate := 16000, frames := [] }

/-- A concrete environment in which every stage succeeds. -/
def okEnv : Env :=
  { modelDirExists := true, inputDecodable := true, toolExitZero := true
    wav := emptyWav }

theorem feedLoop_events {μ σ : Type} (lib : VoskLib μ σ) (bs : List Block) :
    ∀ s : σ, ∀ e ∈ (feedLoop lib s bs).1, isLoopEvent e := by
  induction bs with
  | nil =>
    intro s e he
    simp [feedLoop] at he
  | cons b bs ih =>
    intro s e he
    simp only [feedLoop, List.mem_cons, List.mem_append] at he
    rcases he with he | he | he
    · subst he; trivial
    · by_cases hp : (lib.acceptWaveform s b).2
      · simp only [hp, if_true] at he
        by_cases hr : lib.result (lib.acceptWaveform s b).1 = ""
        · simp [hr] at he
        · simp only [hr, if_false] at he
          simp at he
          subst he
          trivial
      · simp [hp] at he
    · exact ih (lib.acceptWaveform s b).1 e he

theorem feedLoop_endState {μ σ : Type} (lib : VoskLib μ σ) (bs : List Block) :
    ∀ s : σ, (feedLoop lib s bs).2 = sessionEndState lib s bs := by
  induction bs with
  | nil => intro s; simp [feedLoop, sessionEndState]
  | cons b bs ih =>
    intro s
    simp only [feedLoop, sessionEndState]
    exact ih (lib.acceptWaveform s b).1

theorem printedLines_feedLoop {μ σ : Type} (lib : VoskLib μ σ) (bs : List Block) :
    ∀ s : σ, printedLines (feedLoop lib s bs).1 =
      (sessionTexts lib s bs).filter (fun t => t ≠ "") := by
  induction bs with
  | nil => intro s; simp [feedLoop, sessionTexts, printedLines]
  | cons b bs ih =>
    intro s
    simp only [feedLoop, sessionTexts, printedLines, List.filterMap_cons,
      List.filterMap_append, List.filter_append]
    rw [← printedLines, ← printedLines, ih (lib.acceptWaveform s b).1]
    by_cases hp : (lib.acceptWaveform s b).2
    · by_cases hr : lib.result (lib.acceptWaveform s b).1 = ""
      · simp [printedLines, hp, hr]
      · simp [printedLines, hp, hr]
    · simp [printedLines, hp]

theorem fedBlocks_feedLoop {μ σ : Type} (lib : VoskLib μ σ) (bs : List Block) :
    ∀ s : σ, fedBlocks (feedLoop lib s bs).1 = bs := by
  induction bs with
  | nil => intro s; simp [feedLoop, fedBlocks]
  | cons b bs ih =>
    intro s
    simp only [feedLoop, fedBlocks, List.filterMap_cons, List.filterMap_append]
    rw [← fedBlocks, ← fedBlocks, ih (lib.acceptWaveform s b).1]
    by_cases hp : (lib.acceptWaveform s b).2
    · by_cases hr : lib.result (lib.acceptWaveform s b).1 = ""
      · simp [fedBlocks, hp, hr]
      · simp [fedBlocks, hp, hr]
    · simp [fedBlocks, hp]

theorem finalize_not_in_feedLoop {μ σ : Type} (lib : VoskLib μ σ)
    (bs : List Block) (s : σ) : Event.finalize ∉ (feedLoop lib s bs).1 := by
  intro h
  exact feedLoop_events lib bs s Event.finalize h

/-- The recognizer state the driver constructs: KaldiRecognizer(model, 16000)
with SetWords(True). -/
def initialState {μ σ : Type} (lib : VoskLib μ σ) : σ :=
  lib.initSession (lib.loadModel MODEL_PATH) 16000 true

/-- The byte blocks the readframes loop yields from a WAV file. -/
def wavBlocks (w : WavFile) : List Block :=
  (readBlocks w.frames).map blockBytes

theorem run_success_trace {μ σ : Type} (lib : VoskLib μ σ) (env : Env)
    (h1 : env.modelDirExists = true) (h2 : env.inputDecodable = true)
    (h3 : env.toolExitZero = true) (h4 : env.wav.nchannels = 1)
    (h5 : env.wav.sampwidth = 2) :
    run lib env =
      ([Event.checkDir, Event.loadModel, Event.transcode,
        Event.mkSession 16000 true, Event.openWav]
        ++ (feedLoop lib (initialState lib) (wavBlocks env.wav)).1
        ++ [Event.finalize]
        ++ (if lib.finalResult (feedLoop lib (initialState lib)
              (wavBlocks env.wav)).2 = "" then []
            else [Event.printLine (lib.finalResult (feedLoop lib
              (initialState lib) (wavBlocks env.wav)).2)]),
       none) := by
  simp [run, h1, h2, h3, openWavReader, h4, h5, initialState, wavBlocks]

theorem run_trivLib_okEnv : run trivLib okEnv =
    ([Event.checkDir, Event.loadModel, Event.transcode,
      Event.mkSession 16000 true, Event.openWav, Event.finalize], none) := by
  rw [run_success_trace trivLib okEnv rfl rfl rfl rfl rfl]
  simp [wavBlocks, okEnv, emptyWav, readBlocks_nil, feedLoop, trivLib]

example : run trivLib { okEnv with modelDirExists := false } =
    ([Event.checkDir], some RunError.ModelNotFoundError) := by decide

example : run trivLib { okEnv with inputDecodable := false } =
    ([Event.checkDir, Event.loadModel], some RunError.TranscodeError) := by decide

example : run trivLib { okEnv with wav := { emptyWav with nchannels := 2 } } =
    ([Event.checkDir, Event.loadModel, Event.transcode,
      Event.mkSession 16000 true, Event.openWav],
     some RunError.FormatError) := by decide

theorem printedLines_append (l1 l2 : List Event) :
    printedLines (l1 ++ l2) = printedLines l1 ++ printedLines l2 := by
  simp [printedLines]

theorem fedBlocks_append (l1 l2 : List Event) :
    fedBlocks (l1 ++ l2) = fedBlocks l1 ++ fedBlocks l2 := by
  simp [fedBlocks]

theorem blockBytes_flatten (l : List (List Frame)) :
    (l.map blockBytes).flatten = l.flatten.flatten := by
  induction l with
  | nil => simp
  | cons x xs ih => simp [blockBytes, ih]

/-- C3: every yielded block holds at most 4000 frames; a zero-length read from
an exhausted file ends the sequence, so no empty block is ever yielded; every
block except possibly the last holds exactly 4000 frames; and the
concatenation of the raw bytes of all yielded blocks is the entire PCM
payload of the file. -/
theorem frame_reader_block_contract (w : WavFile) :
    (∀ b ∈ readBlocks w.frames, b.length ≤ 4000 ∧ b ≠ []) ∧
    (∀ b ∈ (readBlocks w.frames).dropLast, b.length = 4000) ∧
    (wavBlocks w).flatten = wavPayload w := by
  refine ⟨readBlocks_length_le w.frames, readBlocks_dropLast w.frames, ?_⟩
  rw [wavBlocks, wavPayload, blockBytes_flatten, readBlocks_flatten]

/-- A concrete one-frame WAV for witnesses. -/
def sampleWav : WavFile :=
  { nchannels := 1, sampwidth := 2, framerate := 16000, frames := [[7, 8]] }

theorem frame_reader_block_contract_xwitness :
    ([[7, 8]] : List Frame).length ≤ 4000 ∧ ([[7, 8]] : List Frame) ≠ [] ∧
    (wavBlocks sampleWav).flatten = wavPayload sampleWav := by
  have h := frame_reader_block_contract sampleWav
  have hmem : ([[7, 8]] : List Frame) ∈ readBlocks sampleWav.frames := by
    have : sampleWav.frames = [[7, 8]] := rfl
    rw [this, readBlocks_cons]
    have ht : List.take 4000 [([7, 8] : Frame)] = [[7, 8]] := by
      apply List.take_of_length_le
      decide
    rw [ht]
    exact List.mem_cons_self _ _
  exact ⟨(h.1 _ hmem).1, (h.1 _ hmem).2, h.2.2⟩

/-- C4: opening a WAV fails with FormatError exactly when the channel count is
not 1 or the sample width is not 2 bytes, and a file that fails the
validation never yields any block. -/
theorem format_validation_iff (w : WavFile) :
    (openWavReader w = Except.error RunError.FormatError ↔
      (w.nchannels ≠ 1 ∨ w.sampwidth ≠ 2)) ∧
    (∀ blocks, openWavReader w = Except.ok blocks →
      w.nchannels = 1 ∧ w.sampwidth = 2) := by
  unfold openWavReader
  split
  case isTrue h => simp [h]
  case isFalse h =>
    push_neg at h
    simp [h.1, h.2]

theorem format_validation_iff_xwitness :
    openWavReader { emptyWav with nchannels := 2 } =
      Except.error RunError.FormatError :=
  (format_validation_iff { emptyWav with nchannels := 2 }).1.mpr (by decide)

/-- C5: when the model directory is missing, the run fails with
ModelNotFoundError, the transcoder never runs (so OUTPUT_WAV is never
created or overwritten), and nothing is printed. -/
theorem model_dir_missing {μ σ : Type} (lib : VoskLib μ σ) (env : Env)
    (h : env.modelDirExists = false) :
    (run lib env).2 = some RunError.ModelNotFoundError ∧
    Event.transcode ∉ (run lib env).1 ∧
    printedLines (run lib env).1 = [] := by
  simp [run, h, printedLines]

theorem model_dir_missing_xwitness :
    (run trivLib { okEnv with modelDirExists := false }).2 =
      some RunError.ModelNotFoundError ∧
    Event.transcode ∉ (run trivLib { okEnv with modelDirExists := false }).1 ∧
    printedLines (run trivLib { okEnv with modelDirExists := false }).1 = [] :=
  model_dir_missing trivLib { okEnv with modelDirExists := false } rfl

/-- C6: when the input audio file is missing, the transcoder invocation fails
with TranscodeError; the loaded model is never observed downstream (no
session is constructed), no frame is read or fed, and nothing is printed. -/
theorem input_missing {μ σ : Type} (lib : VoskLib μ σ) (env : Env)
    (h1 : env.modelDirExists = true) (h2 : env.inputDecodable = false) :
    (run lib env).2 = some RunError.TranscodeError ∧
    Event.openWav ∉ (run lib env).1 ∧
    (∀ r w, Event.mkSession r w ∉ (run lib env).1) ∧
    (∀ b, Event.feed b ∉ (run lib env).1) ∧
    Event.finalize ∉ (run lib env).1 ∧
    printedLines (run lib env).1 = [] := by
  simp [run, h1, h2, printedLines]

theorem input_missing_xwitness :
    (run trivLib { okEnv with inputDecodable := false }).2 =
      some RunError.TranscodeError ∧
    Event.openWav ∉ (run trivLib { okEnv with inputDecodable := false }).1 ∧
    (∀ r w, Event.mkSession r w ∉
      (run trivLib { okEnv with inputDecodable := false }).1) ∧
    (∀ b, Event.feed b ∉
      (run trivLib { okEnv with inputDecodable := false }).1) ∧
    Event.finalize ∉ (run trivLib { okEnv with inputDecodable := false }).1 ∧
    printedLines (run trivLib { okEnv with inputDecodable := false }).1 = [] :=
  input_missing trivLib { okEnv with inputDecodable := false } rfl rfl

/-- C7: whenever the run reaches recognition (model present, transcode
succeeded, format valid) the FinalResult call happens exactly once and the
run completes without error; the WAV payload is arbitrary, so this covers a
session fed zero blocks, and the final text the session yields is the
string finalResult returns (possibly empty). -/
theorem finalize_exactly_once {μ σ : Type} (lib : VoskLib μ σ) (env : Env)
    (h1 : env.modelDirExists = true) (h2 : env.inputDecodable = true)
    (h3 : env.toolExitZero = true) (h4 : env.wav.nchannels = 1)
    (h5 : env.wav.sampwidth = 2) :
    (run lib env).2 = none ∧
    (run lib env).1.count Event.finalize = 1 := by
  rw [run_success_trace lib env h1 h2 h3 h4 h5]
  refine ⟨rfl, ?_⟩
  have hl : (feedLoop lib (initialState lib) (wavBlocks env.wav)).1.count
      Event.finalize = 0 :=
    List.count_eq_zero.mpr
      (finalize_not_in_feedLoop lib (wavBlocks env.wav) (initialState lib))
  simp only [List.count_append, hl]
  have hpre : [Event.checkDir, Event.loadModel, Event.transcode,
      Event.mkSession 16000 true, Event.openWav].count Event.finalize = 0 := by
    decide
  have hfin : [Event.finalize].count Event.finalize = 1 := by decide
  rw [hpre, hfin]
  split
  · decide
  · simp [List.count_cons]

theorem finalize_exactly_once_xwitness :
    (run trivLib okEnv).2 = none ∧
    (run trivLib okEnv).1.count Event.finalize = 1 :=
  finalize_exactly_once trivLib okEnv rfl rfl rfl rfl rfl

/-- C8: the transcoder is invoked with exactly the output options ar=16000,
ac=1, acodec=pcm_s16le, f=wav plus the overwrite flag; on a zero exit the
target contains a mono, 16 kHz, 2-byte-sample WAV; and a non-zero exit of
the tool aborts the run with TranscodeError before any recognition: no
session, no feed, no finalize, no printed output. -/
theorem transcoder_contract {μ σ : Type} (lib : VoskLib μ σ) (env : Env)
    (audio : List Frame)
    (h1 : env.modelDirExists = true) (h2 : env.toolExitZero = false) :
    transcodeOpts.ar = 16000 ∧ transcodeOpts.ac = 1 ∧
    transcodeOpts.acodec = "pcm_s16le" ∧ transcodeOpts.f = "wav" ∧
    overwriteOutput = true ∧
    (ffmpegWav transcodeOpts audio).nchannels = 1 ∧
    (ffmpegWav transcodeOpts audio).framerate = 16000 ∧
    (ffmpegWav transcodeOpts audio).sampwidth = 2 ∧
    (run lib env).2 = some RunError.TranscodeError ∧
    (∀ r w, Event.mkSession r w ∉ (run lib env).1) ∧
    (∀ b, Event.feed b ∉ (run lib env).1) ∧
    Event.finalize ∉ (run lib env).1 ∧
    printedLines (run lib env).1 = [] := by
  simp [run, h1, h2, transcodeOpts, overwriteOutput, ffmpegWav,
    sampWidthOfCodec, printedLines]

theorem transcoder_contract_xwitness :
    transcodeOpts.ar = 16000 ∧ transcodeOpts.ac = 1 ∧
    transcodeOpts.acodec = "pcm_s16le" ∧ transcodeOpts.f = "wav" ∧
    overwriteOutput = true ∧
    (ffmpegWav transcodeOpts []).nchannels = 1 ∧
    (ffmpegWav transcodeOpts []).framerate = 16000 ∧
    (ffmpegWav transcodeOpts []).sampwidth = 2 ∧
    (run trivLib { okEnv with toolExitZero := false }).2 =
      some RunError.TranscodeError ∧
    (∀ r w, Event.mkSession r w ∉
      (run trivLib { okEnv with toolExitZero := false }).1) ∧
    (∀ b, Event.feed b ∉
      (run trivLib { okEnv with toolExitZero := false }).1) ∧
    Event.finalize ∉ (run trivLib { okEnv with toolExitZero := false }).1 ∧
    printedLines (run trivLib { okEnv with toolExitZero := false }).1 = [] :=
  transcoder_contract trivLib { okEnv with toolExitZero := false } [] rfl rfl

/-- C9: recognition is deterministic in the embedding: two sessions freshly
constructed from the same model, sample rate and words flag produce, on the
same block sequence, the same interim texts and the same final text. -/
theorem recognition_deterministic {μ σ : Type} (lib : VoskLib μ σ) (m : μ)
    (rate : Nat) (words : Bool) (blocks : List Block) (s1 s2 : σ)
    (hs1 : s1 = lib.initSession m rate words)
    (hs2 : s2 = lib.initSession m rate words) :
    sessionTexts lib s1 blocks = sessionTexts lib s2 blocks ∧
    lib.finalResult (sessionEndState lib s1 blocks) =
      lib.finalResult (sessionEndState lib s2 blocks) := by
  subst hs1
  subst hs2
  exact ⟨rfl, rfl⟩

theorem recognition_deterministic_xwitness :
    sessionTexts trivLib () [[0, 1]] = sessionTexts trivLib () [[0, 1]] ∧
    trivLib.finalResult (sessionEndState trivLib () [[0, 1]]) =
      trivLib.finalResult (sessionEndState trivLib () [[0, 1]]) :=
  recognition_deterministic trivLib () 16000 true [[0, 1]] () () rfl rfl

/-- C10: the validation never reads the sample rate: any WAV with 1 channel
and 2-byte samples passes whatever its frame rate is, and the run feeds its
blocks unchanged to a session constructed at 16000 Hz. -/
theorem samplerate_not_validated {μ σ : Type} (lib : VoskLib μ σ) (env : Env)
    (rate : Nat)
    (h1 : env.modelDirExists = true) (h2 : env.inputDecodable = true)
    (h3 : env.toolExitZero = true) (h4 : env.wav.nchannels = 1)
    (h5 : env.wav.sampwidth = 2) :
    openWavReader { env.wav with framerate := rate } =
      Except.ok (wavBlocks env.wav) ∧
    Event.mkSession 16000 true ∈ (run lib env).1 ∧
    fedBlocks (run lib env).1 = wavBlocks env.wav := by
  refine ⟨?_, ?_, ?_⟩
  · simp [openWavReader, h4, h5, wavBlocks]
  · rw [run_success_trace lib env h1 h2 h3 h4 h5]
    simp
  · rw [run_success_trace lib env h1 h2 h3 h4 h5]
    rw [fedBlocks_append, fedBlocks_append, fedBlocks_append,
      fedBlocks_feedLoop lib (wavBlocks env.wav) (initialState lib)]
    split
    · simp [fedBlocks]
    · simp [fedBlocks]

theorem samplerate_not_validated_xwitness :
    openWavReader { okEnv.wav with framerate := 8000 } =
      Except.ok (wavBlocks okEnv.wav) ∧
    Event.mkSession 16000 true ∈ (run trivLib okEnv).1 ∧
    fedBlocks (run trivLib okEnv).1 = wavBlocks okEnv.wav :=
  samplerate_not_validated trivLib okEnv 8000 rfl rfl rfl rfl rfl

/-- C1 counterexample: in a concrete successful run the session-construction
event precedes the WAV-opening event (the script constructs KaldiRecognizer
before wave.open), so the stage order the claim states — (4) open the WAV
strictly before (5) construct the session — does not hold. -/
theorem stage_order_counterexample :
    (run trivLib okEnv).2 = none ∧ ¬ specStageOrder (run trivLib okEnv).1 := by
  have h1 : (run trivLib okEnv).1 =
      [Event.checkDir, Event.loadModel, Event.transcode,
       Event.mkSession 16000 true, Event.openWav, Event.finalize] := by
    rw [run_trivLib_okEnv]
  refine ⟨by rw [run_trivLib_okEnv], ?_⟩
  intro hs
  rcases hs with ⟨l, f, hf⟩
  rw [h1] at hf
  simp only [List.cons_append, List.nil_append] at hf
  simp at hf

/-- C1 (amended): the driver executes its stages in strict source order —
(1) model-directory check, (2) model load, (3) transcode, then (5) session
construction at 16000 Hz with word detail enabled, then (4) open and
validate the WAV, then (6) the feed loop producing only feed and print
events, then (7) one finalize followed only by the final non-empty print;
the spec's stages (4) and (5) are swapped in the code. -/
theorem driver_stage_order {μ σ : Type} (lib : VoskLib μ σ) (env : Env)
    (h1 : env.modelDirExists = true) (h2 : env.inputDecodable = true)
    (h3 : env.toolExitZero = true) (h4 : env.wav.nchannels = 1)
    (h5 : env.wav.sampwidth = 2) :
    ∃ loopEvs finEvs,
      (run lib env).1 =
        [Event.checkDir, Event.loadModel, Event.transcode,
         Event.mkSession 16000 true, Event.openWav]
          ++ loopEvs ++ [Event.finalize] ++ finEvs ∧
      (∀ e ∈ loopEvs, isLoopEvent e) ∧
      (∀ e ∈ finEvs, ∃ t, e = Event.printLine t ∧ t ≠ "") ∧
      (run lib env).2 = none := by
  refine ⟨(feedLoop lib (initialState lib) (wavBlocks env.wav)).1,
    if lib.finalResult (feedLoop lib (initialState lib)
        (wavBlocks env.wav)).2 = "" then []
      else [Event.printLine (lib.finalResult (feedLoop lib
        (initialState lib) (wavBlocks env.wav)).2)],
    ?_, ?_, ?_, ?_⟩
  · rw [run_success_trace lib env h1 h2 h3 h4 h5]
  · exact feedLoop_events lib (wavBlocks env.wav) (initialState lib)
  · intro e he
    by_cases hf : lib.finalResult (feedLoop lib (initialState lib)
        (wavBlocks env.wav)).2 = ""
    · simp [hf] at he
    · simp only [hf, if_false] at he
      simp at he
      subst he
      exact ⟨_, rfl, hf⟩
  · rw [run_success_trace lib env h1 h2 h3 h4 h5]

theorem driver_stage_order_xwitness :
    ∃ loopEvs finEvs,
      (run trivLib okEnv).1 =
        [Event.checkDir, Event.loadModel, Event.transcode,
         Event.mkSession 16000 true, Event.openWav]
          ++ loopEvs ++ [Event.finalize] ++ finEvs ∧
      (∀ e ∈ loopEvs, isLoopEvent e) ∧
      (∀ e ∈ finEvs, ∃ t, e = Event.printLine t ∧ t ≠ "") ∧
      (run trivLib okEnv).2 = none :=
  driver_stage_order trivLib okEnv rfl rfl rfl rfl rfl

/-- C2: in a successful run the lines written to standard output are exactly
the non-empty interim texts, in the order the recognizer produced them,
followed by the final flushed text if and only if it is non-empty. -/
theorem stdout_exactly_results {μ σ : Type} (lib : VoskLib μ σ) (env : Env)
    (h1 : env.modelDirExists = true) (h2 : env.inputDecodable = true)
    (h3 : env.toolExitZero = true) (h4 : env.wav.nchannels = 1)
    (h5 : env.wav.sampwidth = 2) :
    printedLines (run lib env).1 =
      specOutput lib (initialState lib) (wavBlocks env.wav) := by
  rw [run_success_trace lib env h1 h2 h3 h4 h5]
  rw [printedLines_append, printedLines_append, printedLines_append,
    printedLines_feedLoop lib (wavBlocks env.wav) (initialState lib),
    feedLoop_endState lib (wavBlocks env.wav) (initialState lib)]
  unfold specOutput
  by_cases hf : lib.finalResult (sessionEndState lib (initialState lib)
      (wavBlocks env.wav)) = ""
  · simp [printedLines, hf]
  · simp [printedLines, hf]

theorem stdout_exactly_results_xwitness :
    printedLines (run trivLib okEnv).1 =
      specOutput trivLib (initialState trivLib) (wavBlocks okEnv.wav) :=
  stdout_exactly_results trivLib okEnv rfl rfl rfl rfl rfl

end VoiceChat
